import Mathlib

/-!
Verification of the acoustic prediction engine of the cbc-acoustics-dashboard
repository: a shallow embedding, over ℚ, of the treatment simulator
(src/treatment_simulator.py), the Studio 8 RT60 heatmap analyzer
(src/rt60_heatmap_analyzer.py), the Hub RT60 heatmap analyzer
(src/rt60_heatmap_analyzer_hub.py) and the STI baseline estimator of the
Hub frequency-data generators (src/generate_hub_complete_frequency_data.py,
src/generate_hub_frequency_simple.py), followed by theorems settling the
specification's claims about them.
-/

namespace TreatmentSimulator

/-- The six frequency bands of the simulator tables (the keys of
`current_conditions["rt60_by_freq"]` and of the absorption curves). -/
inductive Freq
  | f125 | f250 | f500 | f1000 | f2000 | f4000
deriving DecidableEq, Repr

/-- The four panel thickness classes of `panel_specs`. -/
inductive Thickness
  | t2 | t3 | t5_5 | t11
deriving DecidableEq, Repr

/-- `_get_absorption_curve`: frequency-dependent absorption coefficients per
thickness class. -/
def absorption_curve : Thickness → Freq → ℚ
  | .t2, .f125 => 15/100
  | .t2, .f250 => 40/100
  | .t2, .f500 => 75/100
  | .t2, .f1000 => 80/100
  | .t2, .f2000 => 85/100
  | .t2, .f4000 => 85/100
  | .t3, .f125 => 25/100
  | .t3, .f250 => 60/100
  | .t3, .f500 => 90/100
  | .t3, .f1000 => 95/100
  | .t3, .f2000 => 98/100
  | .t3, .f4000 => 98/100
  | .t5_5, .f125 => 45/100
  | .t5_5, .f250 => 80/100
  | .t5_5, .f500 => 105/100
  | .t5_5, .f1000 => 115/100
  | .t5_5, .f2000 => 118/100
  | .t5_5, .f4000 => 115/100
  | .t11, .f125 => 75/100
  | .t11, .f250 => 110/100
  | .t11, .f500 => 125/100
  | .t11, .f1000 => 135/100
  | .t11, .f2000 => 130/100
  | .t11, .f4000 => 120/100

/-- `panel_specs[...]["size"]`: every panel covers 8 square feet. -/
def panel_size : ℚ := 8

/-- Space-specific parameters set by `_load_space_parameters`: room volume,
surface area and the baseline RT60-by-frequency table. -/
structure SpaceParams where
  room_volume : ℚ
  room_surface_area : ℚ
  rt60_by_freq : Freq → ℚ

/-- Studio 8 parameters (`_load_space_parameters("Studio 8")`, the default). -/
def studio8 : SpaceParams where
  room_volume := 2650
  room_surface_area := 1847
  rt60_by_freq
    | .f125 => 85/100
    | .f250 => 92/100
    | .f500 => 78/100
    | .f1000 => 71/100
    | .f2000 => 68/100
    | .f4000 => 55/100

/-- The Hub parameters (`_load_space_parameters("The Hub")`). -/
def theHub : SpaceParams where
  room_volume := 1900
  room_surface_area := 1400
  rt60_by_freq
    | .f125 => 72/100
    | .f250 => 78/100
    | .f500 => 65/100
    | .f1000 => 58/100
    | .f2000 => 52/100
    | .f4000 => 48/100

/-- The hardcoded fallback drape absorption coefficients of `_load_drape_data`
(used when the CSV is absent; the CSV itself is runtime data, so the simulator
below is parametrized by the loaded `drape_data` table). -/
def drape_fallback : Freq → ℚ
  | .f125 => 15/100
  | .f250 => 30/100
  | .f500 => 55/100
  | .f1000 => 75/100
  | .f2000 => 80/100
  | .f4000 => 70/100

/-- Baseline absorption coefficient estimated from the baseline RT60 by
inverting Sabine (`current_absorption[freq]` in `calculate_rt60_with_panels`):
`0.161 * V / (rt60 * S)`. -/
def current_absorption (p : SpaceParams) (f : Freq) : ℚ :=
  (161/1000 * p.room_volume) / (p.rt60_by_freq f * p.room_surface_area)

/-- Total added absorption from all panel types
(`total_added_absorption[freq]`): the sum over thicknesses of
`count * size * coefficient / S`.  (The source skips `count == 0` entries,
which contribute 0 anyway.) -/
def total_added_absorption (p : SpaceParams) (counts : Thickness → ℕ) (f : Freq) : ℚ :=
  (counts .t2 : ℚ) * panel_size * absorption_curve .t2 f / p.room_surface_area
    + (counts .t3 : ℚ) * panel_size * absorption_curve .t3 f / p.room_surface_area
    + (counts .t5_5 : ℚ) * panel_size * absorption_curve .t5_5 f / p.room_surface_area
    + (counts .t11 : ℚ) * panel_size * absorption_curve .t11 f / p.room_surface_area

/-- The clamp `max(0.01, min(0.99, new_alpha))` applied to the new total
absorption coefficient. -/
def clamp_alpha (x : ℚ) : ℚ := max (1/100) (min (99/100) x)

/-- `TreatmentSimulator.calculate_rt60_with_panels`: Sabine prediction of the
RT60 at band `f` after adding `counts` panels, optionally removing the drape
(whose per-band coefficients `drape_data` come from a CSV at runtime, with
`drape_fallback` as the hardcoded fallback). -/
def calculate_rt60_with_panels (p : SpaceParams) (drape_data : Freq → ℚ)
    (counts : Thickness → ℕ) (drape_removal : Bool) (f : Freq) : ℚ :=
  let drape_loss : ℚ :=
    if drape_removal then drape_data f * 40 / p.room_surface_area else 0
  let new_alpha : ℚ :=
    clamp_alpha (current_absorption p f + total_added_absorption p counts f - drape_loss)
  (161/1000 * p.room_volume) / (new_alpha * p.room_surface_area)

/-- `target_conditions["sti_target"]`, set in `__init__` and never changed. -/
def target_sti : ℚ := 3/4

/-- `current_conditions["average_sti"]` for Studio 8 (the value loaded by
`__init__` through `_load_space_parameters("Studio 8")`). -/
def studio8_average_sti : ℚ := 67/100

/-- `calculate_sti_improvement`: empirical STI estimate from an RT60
improvement.  `current_sti` is the `average_sti` of the loaded space. -/
def calculate_sti_improvement (current_sti rt60_improvement : ℚ) : ℚ :=
  let rt60_factor : ℚ := min 1 (rt60_improvement / (3/10))
  let sti_improvement : ℚ := rt60_factor * (target_sti - current_sti) * (7/10)
  min target_sti (current_sti + sti_improvement)

end TreatmentSimulator

namespace RT60HeatmapAnalyzer

/-- The seven analysis bands of `frequency_bands` in the heatmap analyzers. -/
inductive Freq
  | f125 | f250 | f500 | f1000 | f2000 | f4000 | f8000
deriving DecidableEq, Repr

/-- Numeric frequency in Hz of each band (the integers the source branches on). -/
def freq_hz : Freq → ℕ
  | .f125 => 125
  | .f250 => 250
  | .f500 => 500
  | .f1000 => 1000
  | .f2000 => 2000
  | .f4000 => 4000
  | .f8000 => 8000

/-- The eight Studio 8 measurement positions of `measurement_positions`. -/
inductive Position
  | HostA | HostC | Ceiling | SECorner | MidRoom | NECorner | SWCorner | NWCorner
deriving DecidableEq, Repr

/-- `base_factors` of `get_position_factor`. -/
def base_factor : Position → ℚ
  | .HostA => 1
  | .HostC => 102/100
  | .Ceiling => 92/100
  | .SECorner => 115/100
  | .MidRoom => 88/100
  | .NECorner => 118/100
  | .SWCorner => 112/100
  | .NWCorner => 108/100

/-- Whether the Python position-name string contains the substring
Corner (the test used by `get_position_factor`). -/
def corner_position : Position → Bool
  | .SECorner | .NECorner | .SWCorner | .NWCorner => true
  | _ => false

/-- `get_position_factor`: position-specific acoustic adjustment factor.
Low bands boost corner positions by 1.25; bands at 2000 Hz and above scale
every position by 0.95; otherwise the base factor is returned. -/
def get_position_factor (pos : Position) (f : Freq) : ℚ :=
  if freq_hz f ≤ 250 then
    if corner_position pos then base_factor pos * (125/100) else base_factor pos
  else if 2000 ≤ freq_hz f then base_factor pos * (95/100)
  else base_factor pos

/-- Studio 8 east-west width in feet (`room_width_EW`). -/
def room_width_EW : ℚ := 23375/1000

/-- Studio 8 north-south length in feet (`room_length_NS`). -/
def room_length_NS : ℚ := 2742/100

/-- Studio 8 ceiling height in feet (`room_height`). -/
def room_height : ℚ := 14

/-- Floor area used by `calculate_baseline_absorption`. -/
def floor_area : ℚ := room_width_EW * room_length_NS

/-- Ceiling area used by `calculate_baseline_absorption`. -/
def ceiling_area : ℚ := floor_area

/-- Total wall area used by `calculate_baseline_absorption`. -/
def total_wall_area : ℚ :=
  2 * room_length_NS * room_height + 2 * room_width_EW * room_height

/-- One row of the baseline absorption-coefficient table of
`calculate_baseline_absorption` (floor, ceiling, walls). -/
structure SurfaceCoeffs where
  floor : ℚ
  ceiling : ℚ
  walls : ℚ

/-- The per-band baseline coefficient table of `calculate_baseline_absorption`. -/
def baseline_coeffs : Freq → SurfaceCoeffs
  | .f125 => ⟨2/100, 14/100, 3/100⟩
  | .f250 => ⟨2/100, 10/100, 4/100⟩
  | .f500 => ⟨3/100, 6/100, 5/100⟩
  | .f1000 => ⟨4/100, 4/100, 6/100⟩
  | .f2000 => ⟨4/100, 4/100, 8/100⟩
  | .f4000 => ⟨5/100, 3/100, 10/100⟩
  | .f8000 => ⟨5/100, 3/100, 12/100⟩

/-- `calculate_baseline_absorption`: total baseline absorption (sabins) per
band, `floor_area*cf + ceiling_area*cc + total_wall_area*cw`.  (In the source
this method stores the table on `self`; it is never invoked, see claim C2.) -/
def calculate_baseline_absorption (f : Freq) : ℚ :=
  floor_area * (baseline_coeffs f).floor + ceiling_area * (baseline_coeffs f).ceiling
    + total_wall_area * (baseline_coeffs f).walls

/-- Zone 1 of `get_panel_absorption_by_count`: corner bass traps, up to 4. -/
def corner_traps (n : ℕ) : ℕ := min 4 n

/-- Zone 2: high midpoint panels, up to 3 of the remainder. -/
def midpoint_panels (n : ℕ) : ℕ := min 3 (n - corner_traps n)

/-- Zone 3: ceiling center panels, up to 9 of the remainder. -/
def ceiling_panels (n : ℕ) : ℕ := min 9 (n - corner_traps n - midpoint_panels n)

/-- Zone 4: north wall panels, up to 4 of the remainder. -/
def wall_panels (n : ℕ) : ℕ :=
  min 4 (n - corner_traps n - midpoint_panels n - ceiling_panels n)

/-- Zone 5: grid clouds, all remaining panels (no cap in the source). -/
def cloud_panels (n : ℕ) : ℕ :=
  n - corner_traps n - midpoint_panels n - ceiling_panels n - wall_panels n

/-- Total panel count committed across the five zones. -/
def total_committed (n : ℕ) : ℕ :=
  corner_traps n + midpoint_panels n + ceiling_panels n + wall_panels n + cloud_panels n

/-- `get_panel_absorption_by_count`: added absorption per band, summing
`zone_count * panel_area * coefficient` over the five priority zones (zones
1-3 use the 5.5-inch curve, zones 4-5 the 3-inch curve).  The attributes
`self.panel_area`, `self.panel_absorption_5_5_inch` and
`self.panel_absorption_3_inch` are never assigned anywhere in the source
file, so they appear here as parameters. -/
def get_panel_absorption_by_count (panel_area : ℚ) (a55 a3 : Freq → ℚ)
    (n : ℕ) (f : Freq) : ℚ :=
  if n = 0 then 0
  else
    (corner_traps n : ℚ) * panel_area * a55 f
      + (midpoint_panels n : ℚ) * panel_area * a55 f
      + (ceiling_panels n : ℚ) * panel_area * a55 f
      + (wall_panels n : ℚ) * panel_area * a3 f
      + (cloud_panels n : ℚ) * panel_area * a3 f

/-- `get_air_absorption`: air absorption correction for high bands,
proportional to room volume. -/
def get_air_absorption (f : Freq) (volume : ℚ) : ℚ :=
  if freq_hz f = 2000 then 33/10000 * volume / 1000
  else if freq_hz f = 4000 then 102/10000 * volume / 1000
  else if freq_hz f = 8000 then 324/10000 * volume / 1000
  else 0

/-- The absorption fed to Sabine in `calculate_rt60_with_panels` lines
147-152: `(baseline + panel) * position_factor` — the position factor
multiplies the whole sum. -/
def adjusted_absorption (panel_absorption : Freq → ℚ) (pos : Position) (f : Freq) : ℚ :=
  (calculate_baseline_absorption f + panel_absorption f) * get_position_factor pos f

/-- Modelled from the spec: section 4.3 prescribes that each position
applies its position factor to the added absorption term only, leaving the
baseline term unscaled.  Stated for comparison with `adjusted_absorption`,
which is what the source computes. -/
def adjusted_absorption_spec (panel_absorption : Freq → ℚ) (pos : Position) (f : Freq) : ℚ :=
  calculate_baseline_absorption f + panel_absorption f * get_position_factor pos f

/-- The attributes of `RT60HeatmapAnalyzer` read by
`calculate_rt60_with_panels` and `get_panel_absorption_by_count`: each is
`none` when unassigned, in which case an attribute read raises. -/
structure AnalyzerState where
  baseline_absorption : Option (Freq → ℚ)
  room_volume : Option ℚ
  panel_area : Option ℚ
  panel_absorption_5_5_inch : Option (Freq → ℚ)
  panel_absorption_3_inch : Option (Freq → ℚ)

/-- The state produced by `__init__`: it sets only the geometry, band list,
position table and the Smaart data, and never assigns any of the five
attributes above (`calculate_baseline_absorption` is never called). -/
def init_state : AnalyzerState :=
  { baseline_absorption := none
    room_volume := none
    panel_area := none
    panel_absorption_5_5_inch := none
    panel_absorption_3_inch := none }

/-- Reading an attribute: `.ok` when assigned, otherwise the AttributeError
naming the missing attribute. -/
def read_attr {α : Type} (name : String) : Option α → Except String α
  | some a => .ok a
  | none => .error name

/-- `get_panel_absorption_by_count` as executed on an `AnalyzerState`: for a
positive count the body reads `panel_area` and `panel_absorption_5_5_inch`
(zone 1 always runs), and reads `panel_absorption_3_inch` only when panels
remain for zone 4 (count above 16, where zones 4-5 contribute 0 otherwise). -/
def get_panel_absorption_by_countM (st : AnalyzerState) (n : ℕ) :
    Except String (Freq → ℚ) :=
  if n = 0 then .ok fun _ => 0
  else do
    let area ← read_attr "panel_area" st.panel_area
    let a55 ← read_attr "panel_absorption_5_5_inch" st.panel_absorption_5_5_inch
    let a3 ←
      if 16 < n then read_attr "panel_absorption_3_inch" st.panel_absorption_3_inch
      else pure fun _ => 0
    .ok (get_panel_absorption_by_count area a55 a3 n)

/-- `RT60HeatmapAnalyzer.calculate_rt60_with_panels` as executed on an
`AnalyzerState`: panel absorption first, then the per-position loop reading
`baseline_absorption` and `room_volume`, Sabine with the 0.1 divisor floor,
and the air-absorption correction at 2000 Hz and above. -/
def calculate_rt60_with_panelsM (st : AnalyzerState) (n : ℕ) :
    Except String (Position → Freq → ℚ) := do
  let panel_absorption ← get_panel_absorption_by_countM st n
  let baseline ← read_attr "baseline_absorption" st.baseline_absorption
  let volume ← read_attr "room_volume" st.room_volume
  .ok fun pos f =>
    let total_absorption := baseline f + panel_absorption f
    let adjusted := total_absorption * get_position_factor pos f
    let rt60 := 161/1000 * volume / max adjusted (1/10)
    if 2000 ≤ freq_hz f then rt60 / (1 + get_air_absorption f volume) else rt60

end RT60HeatmapAnalyzer

namespace RT60HeatmapAnalyzerHub

open RT60HeatmapAnalyzer (Freq freq_hz)

/-- The five Hub measurement positions of `measurement_positions`. -/
inductive Position
  | MidRoom | BackCorner | Chair1 | Chair2 | CeilingCorner
deriving DecidableEq, Repr

/-- `base_effectiveness` of `get_position_panel_effectiveness`. -/
def base_effectiveness : Position → ℚ
  | .MidRoom => 9/10
  | .BackCorner => 13/10
  | .Chair1 => 11/10
  | .Chair2 => 11/10
  | .CeilingCorner => 14/10

/-- Whether the Hub position-name string contains the substring Corner. -/
def corner_position : Position → Bool
  | .BackCorner | .CeilingCorner => true
  | _ => false

/-- `get_position_panel_effectiveness`: base effectiveness times a frequency
factor that is 1.4 for corner positions at or below 250 Hz and 1 otherwise. -/
def get_position_panel_effectiveness (pos : Position) (f : Freq) : ℚ :=
  let freq_factor : ℚ :=
    if freq_hz f ≤ 250 ∧ corner_position pos = true then 14/10 else 1
  base_effectiveness pos * freq_factor

/-- `RT60HeatmapAnalyzerHub.calculate_rt60_with_panels`.  `data` models
`self.actual_rt60_data`: an optional per-band table per position, each band
optionally present.  `factor` stands for `get_panel_improvement_factor`,
whose value `min(0.45*(1 - exp(-0.08*count)), 0.45)` is transcendental
floating point, so the prediction is stated for an arbitrary factor.  A
missing band falls back to 0.5 s, a missing position to 0.6 s; a present
measurement is scaled by `1 - factor*effectiveness` and floored at 0.15 s. -/
def calculate_rt60_with_panels (data : Position → Option (Freq → Option ℚ))
    (factor : ℚ) (pos : Position) (f : Freq) : ℚ :=
  match data pos with
  | some measured =>
    match measured f with
    | some baseline_rt60 =>
      let panel_reduction := factor * get_position_panel_effectiveness pos f
      max (baseline_rt60 * (1 - panel_reduction)) (15/100)
    | none => 1/2
  | none => 3/5

end RT60HeatmapAnalyzerHub

namespace GenerateHubFrequencyData

/-- `reference_sti` of `calculate_sti_degradation`. -/
def reference_sti : ℚ := 95/100

/-- `calculate_sti_degradation`, identical in
src/generate_hub_complete_frequency_data.py and
src/generate_hub_frequency_simple.py: the inputs model
`position_data.get("alcons_s", 3.0)` and `position_data.get("t_mid", 0.4)`;
the result is the pair (estimated_sti, degradation_percent). -/
def calculate_sti_degradation (alcons_s t_mid : Option ℚ) : ℚ × ℚ :=
  let alcons := alcons_s.getD 3
  let t_mid := t_mid.getD (4/10)
  let estimated_sti := max (3/10) (1 - alcons/15 - max 0 ((t_mid - 3/10)/2))
  (estimated_sti, (1 - estimated_sti / reference_sti) * 100)

end GenerateHubFrequencyData

namespace TreatmentSimulator

/-- C1, counterexample: at `rt60_improvement = -10` (with the fixed Studio 8
current STI 0.67 and target 0.75) `calculate_sti_improvement` returns
-359/300 < 0, so its result is not confined to `[0, target_sti]`. -/
theorem c1_sti_clamp_counterexample :
    calculate_sti_improvement studio8_average_sti (-10) = -359/300 ∧
      calculate_sti_improvement studio8_average_sti (-10) < 0 := by
  unfold calculate_sti_improvement studio8_average_sti target_sti
  norm_num [min_def]

/-- C1, amended: for any current STI with `0 ≤ current_sti ≤ target_sti`
(which the fixed constants satisfy), the result of
`calculate_sti_improvement` never exceeds `target_sti`, and it is
non-negative whenever the RT60 improvement is non-negative; only the upper
clamp exists, so sufficiently negative improvements drive the result below
0. -/
theorem c1_sti_bounds (current_sti x : ℚ) (h0 : 0 ≤ current_sti)
    (h1 : current_sti ≤ target_sti) :
    calculate_sti_improvement current_sti x ≤ target_sti ∧
      (0 ≤ x → 0 ≤ calculate_sti_improvement current_sti x) := by
  unfold calculate_sti_improvement
  refine ⟨min_le_left _ _, fun hx => ?_⟩
  have hfac : (0:ℚ) ≤ min 1 (x / (3/10)) := by
    have : (0:ℚ) ≤ x / (3/10) := by positivity
    rcases min_cases (1:ℚ) (x / (3/10)) with h | h <;> rw [h.1] <;> linarith
  have hgap : (0:ℚ) ≤ target_sti - current_sti := by linarith
  have : (0:ℚ) ≤ min 1 (x / (3/10)) * (target_sti - current_sti) * (7/10) := by
    positivity
  have htgt : (0:ℚ) ≤ target_sti := by unfold target_sti; norm_num
  exact le_min htgt (by linarith)

/-- Witness for `c1_sti_bounds` at the fixed constants and
`rt60_improvement = 1`. -/
theorem c1_sti_bounds_witness :
    calculate_sti_improvement studio8_average_sti 1 ≤ target_sti ∧
      0 ≤ calculate_sti_improvement studio8_average_sti 1 := by
  have h := c1_sti_bounds studio8_average_sti 1
    (by norm_num [studio8_average_sti]) (by norm_num [studio8_average_sti, target_sti])
  exact ⟨h.1, h.2 (by norm_num)⟩

/-- C9, counterexample: for Studio 8 (V=2650, S=1847, baseline RT60@1000Hz
= 0.71 s) with 4 panels of the 11-inch type and no drape removal, the
predicted RT60 at 1000 Hz exceeds 0.60 s, so it does not fall in the claimed
0.55-0.60 s range. -/
theorem c9_scenario_counterexample :
    3/5 < calculate_rt60_with_panels studio8 drape_fallback
      (fun t => match t with | .t11 => 4 | _ => 0) false .f1000 := by
  unfold calculate_rt60_with_panels clamp_alpha current_absorption
    total_added_absorption studio8 panel_size absorption_curve
  norm_num [min_def, max_def]

/-- C9, amended: the same scenario yields exactly 605843/914644 of a second
(the Sabine formula applied to the stated inputs, approximately 0.662 s),
which is strictly below the 0.71 s baseline and strictly above the 0.1 s
floor, but lies above 0.60 s rather than in the 0.55-0.60 s range. -/
theorem c9_scenario_value :
    calculate_rt60_with_panels studio8 drape_fallback
        (fun t => match t with | .t11 => 4 | _ => 0) false .f1000 = 605843/914644 ∧
      (605843/914644 : ℚ) < 71/100 ∧ (1/10 : ℚ) < 605843/914644 := by
  refine ⟨?_, by norm_num, by norm_num⟩
  unfold calculate_rt60_with_panels clamp_alpha current_absorption
    total_added_absorption studio8 panel_size absorption_curve
  norm_num [min_def, max_def]

/-- C4, counterexample: the zero-panel round-trip fails for a room profile
whose inverse-Sabine baseline absorption falls below the 0.01 clamp: with
V=2650, S=1847 and a flat baseline RT60 of 100 s, the zero-panel prediction
is 42665/1847 (about 23.1 s), not the original 100 s. -/
theorem c4_roundtrip_counterexample :
    calculate_rt60_with_panels ⟨2650, 1847, fun _ => 100⟩ drape_fallback
        (fun _ => 0) false .f1000 = 42665/1847 ∧ (42665/1847 : ℚ) ≠ 100 := by
  refine ⟨?_, by norm_num⟩
  unfold calculate_rt60_with_panels clamp_alpha current_absorption
    total_added_absorption panel_size absorption_curve
  norm_num [min_def, max_def]

/-- C4, amended: zero panels always contribute zero added absorption (in the
simulator and in the heatmap resolver), and the inverse-Sabine round-trip
reproduces the baseline RT60 exactly whenever the derived baseline
absorption coefficient lies inside the clamp window [0.01, 0.99]; outside
that window the clamp changes the result. -/
theorem c4_zero_panels_roundtrip (p : SpaceParams) (drape : Freq → ℚ) (f : Freq)
    (h1 : 1/100 ≤ current_absorption p f) (h2 : current_absorption p f ≤ 99/100) :
    total_added_absorption p (fun _ => 0) f = 0 ∧
      (∀ (area : ℚ) (a55 a3 : RT60HeatmapAnalyzer.Freq → ℚ) (g : RT60HeatmapAnalyzer.Freq),
        RT60HeatmapAnalyzer.get_panel_absorption_by_count area a55 a3 0 g = 0) ∧
      calculate_rt60_with_panels p drape (fun _ => 0) false f = p.rt60_by_freq f := by
  have hzero : total_added_absorption p (fun _ => 0) f = 0 := by
    unfold total_added_absorption
    push_cast
    ring
  refine ⟨hzero, fun area a55 a3 g => by
    simp [RT60HeatmapAnalyzer.get_panel_absorption_by_count], ?_⟩
  unfold calculate_rt60_with_panels
  simp only [Bool.false_eq_true, if_false, hzero, add_zero, sub_zero]
  have hclamp : clamp_alpha (current_absorption p f) = current_absorption p f := by
    unfold clamp_alpha
    rw [min_eq_right h2, max_eq_right h1]
  rw [hclamp]
  have hpos : 0 < current_absorption p f := lt_of_lt_of_le (by norm_num) h1
  unfold current_absorption at hpos ⊢
  have hdne : p.rt60_by_freq f * p.room_surface_area ≠ 0 := by
    intro h
    rw [h, div_zero] at hpos
    exact absurd hpos (lt_irrefl 0)
  have hcne : 161/1000 * p.room_volume ≠ 0 := by
    intro h
    rw [h, zero_div] at hpos
    exact absurd hpos (lt_irrefl 0)
  have hS : p.room_surface_area ≠ 0 := fun h => hdne (by rw [h, mul_zero])
  have hr : p.rt60_by_freq f ≠ 0 := fun h => hdne (by rw [h, zero_mul])
  have hV : p.room_volume ≠ 0 := fun h => hcne (by rw [h, mul_zero])
  field_simp
  ring

/-- Witness for `c4_zero_panels_roundtrip`: Studio 8 at 1000 Hz, where the
derived baseline absorption 42665/131137 lies inside the clamp window, and
the zero-panel prediction is exactly the baseline 0.71 s. -/
theorem c4_zero_panels_roundtrip_witness :
    total_added_absorption studio8 (fun _ => 0) .f1000 = 0 ∧
      (∀ (area : ℚ) (a55 a3 : RT60HeatmapAnalyzer.Freq → ℚ) (g : RT60HeatmapAnalyzer.Freq),
        RT60HeatmapAnalyzer.get_panel_absorption_by_count area a55 a3 0 g = 0) ∧
      calculate_rt60_with_panels studio8 drape_fallback (fun _ => 0) false .f1000
        = studio8.rt60_by_freq .f1000 :=
  c4_zero_panels_roundtrip studio8 drape_fallback .f1000
    (by unfold current_absorption studio8; norm_num)
    (by unfold current_absorption studio8; norm_num)

/-- Every tabulated absorption coefficient is non-negative. -/
theorem absorption_curve_nonneg (t : Thickness) (f : Freq) : 0 ≤ absorption_curve t f := by
  cases t <;> cases f <;> norm_num [absorption_curve]

/-- The clamped absorption coefficient is positive (at least 0.01). -/
theorem clamp_alpha_pos (x : ℚ) : 0 < clamp_alpha x :=
  lt_of_lt_of_le (by norm_num) (le_max_left _ _)

/-- The clamped absorption coefficient is at most 0.99. -/
theorem clamp_alpha_le (x : ℚ) : clamp_alpha x ≤ 99/100 :=
  max_le (by norm_num) (min_le_left _ _)

/-- The clamp is monotone. -/
theorem clamp_alpha_mono {x y : ℚ} (h : x ≤ y) : clamp_alpha x ≤ clamp_alpha y :=
  max_le_max le_rfl (min_le_min le_rfl h)

/-- The alpha clamp at 0.99 bounds every simulator RT60 prediction below by
0.161*V/(0.99*S). -/
theorem rt60_lower_bound (p : SpaceParams) (hV : 0 ≤ p.room_volume)
    (hS : 0 < p.room_surface_area) (drape : Freq → ℚ) (counts : Thickness → ℕ)
    (d : Bool) (f : Freq) :
    161/1000 * p.room_volume / (99/100 * p.room_surface_area) ≤
      calculate_rt60_with_panels p drape counts d f := by
  unfold calculate_rt60_with_panels
  exact div_le_div_of_nonneg_left (mul_nonneg (by norm_num) hV)
    (mul_pos (clamp_alpha_pos _) hS)
    (mul_le_mul_of_nonneg_right (clamp_alpha_le _) hS.le)

/-- C5: with a fixed drape flag, a panel allocation that dominates another
pointwise never yields a larger predicted RT60 at any band — adding panels
cannot increase RT60. -/
theorem c5_rt60_monotone (p : SpaceParams) (hV : 0 ≤ p.room_volume)
    (hS : 0 < p.room_surface_area) (drape : Freq → ℚ) (d : Bool)
    (c1 c2 : Thickness → ℕ) (h : ∀ t, c1 t ≤ c2 t) (f : Freq) :
    calculate_rt60_with_panels p drape c2 d f ≤
      calculate_rt60_with_panels p drape c1 d f := by
  have key : ∀ t : Thickness,
      (c1 t : ℚ) * panel_size * absorption_curve t f / p.room_surface_area ≤
        (c2 t : ℚ) * panel_size * absorption_curve t f / p.room_surface_area := by
    intro t
    exact (div_le_div_iff_of_pos_right hS).mpr
      (mul_le_mul_of_nonneg_right
        (mul_le_mul_of_nonneg_right (by exact_mod_cast h t) (by norm_num [panel_size]))
        (absorption_curve_nonneg t f))
  have hadd : total_added_absorption p c1 f ≤ total_added_absorption p c2 f := by
    have h2 := key .t2
    have h3 := key .t3
    have h5 := key .t5_5
    have h11 := key .t11
    unfold total_added_absorption
    linarith
  unfold calculate_rt60_with_panels
  have hclamp :
      clamp_alpha (current_absorption p f + total_added_absorption p c1 f -
          if d then drape f * 40 / p.room_surface_area else 0) ≤
        clamp_alpha (current_absorption p f + total_added_absorption p c2 f -
          if d then drape f * 40 / p.room_surface_area else 0) :=
    clamp_alpha_mono (by linarith)
  exact div_le_div_of_nonneg_left (mul_nonneg (by norm_num) hV)
    (mul_pos (clamp_alpha_pos _) hS)
    (mul_le_mul_of_nonneg_right hclamp hS.le)

/-- Witness for `c5_rt60_monotone`: in Studio 8 at 1000 Hz, one panel of
every type predicts at most the RT60 of the empty allocation. -/
theorem c5_rt60_monotone_witness :
    calculate_rt60_with_panels studio8 drape_fallback (fun _ => 1) false .f1000 ≤
      calculate_rt60_with_panels studio8 drape_fallback (fun _ => 0) false .f1000 :=
  c5_rt60_monotone studio8 (by norm_num [studio8]) (by norm_num [studio8])
    drape_fallback false (fun _ => 0) (fun _ => 1) (fun t => Nat.zero_le 1) .f1000

/-- C6: every RT60 the predictors produce respects a physical floor: both
simulator space profiles stay at or above 0.1 s for every allocation, drape
table and flag (via the generic 0.161*V/(0.99*S) bound from the alpha clamp,
stated as the last conjunct), and the Hub heatmap variant never goes below
its 0.15 s clamp (its missing-data fallbacks 0.5 s and 0.6 s included), for
every improvement factor. -/
theorem c6_rt60_floor (counts : Thickness → ℕ) (drape : Freq → ℚ) (d : Bool)
    (f : Freq)
    (data : RT60HeatmapAnalyzerHub.Position → Option (RT60HeatmapAnalyzer.Freq → Option ℚ))
    (factor : ℚ) (pos : RT60HeatmapAnalyzerHub.Position)
    (g : RT60HeatmapAnalyzer.Freq) :
    1/10 ≤ calculate_rt60_with_panels studio8 drape counts d f ∧
      1/10 ≤ calculate_rt60_with_panels theHub drape counts d f ∧
      15/100 ≤ RT60HeatmapAnalyzerHub.calculate_rt60_with_panels data factor pos g ∧
      (∀ p : SpaceParams, 0 ≤ p.room_volume → 0 < p.room_surface_area →
        161/1000 * p.room_volume / (99/100 * p.room_surface_area) ≤
          calculate_rt60_with_panels p drape counts d f) := by
  refine ⟨?_, ?_, ?_, fun p hV hS => rt60_lower_bound p hV hS drape counts d f⟩
  · refine le_trans ?_ (rt60_lower_bound studio8 (by norm_num [studio8])
      (by norm_num [studio8]) drape counts d f)
    norm_num [studio8]
  · refine le_trans ?_ (rt60_lower_bound theHub (by norm_num [theHub])
      (by norm_num [theHub]) drape counts d f)
    norm_num [theHub]
  · rcases hdp : data pos with _ | measured
    · norm_num [RT60HeatmapAnalyzerHub.calculate_rt60_with_panels, hdp]
    · rcases hm : measured g with _ | b
      · norm_num [RT60HeatmapAnalyzerHub.calculate_rt60_with_panels, hdp, hm]
      · simp only [RT60HeatmapAnalyzerHub.calculate_rt60_with_panels, hdp, hm]
        exact le_max_right _ _

/-- Witness for `c6_rt60_floor` at concrete inputs, instantiating the
generic lower bound at The Hub profile. -/
theorem c6_rt60_floor_witness :
    1/10 ≤ calculate_rt60_with_panels studio8 drape_fallback (fun _ => 100) true .f125 ∧
      1/10 ≤ calculate_rt60_with_panels theHub drape_fallback (fun _ => 100) true .f125 ∧
      15/100 ≤ RT60HeatmapAnalyzerHub.calculate_rt60_with_panels
        (fun _ => none) 0 .MidRoom .f8000 ∧
      161/1000 * theHub.room_volume / (99/100 * theHub.room_surface_area) ≤
        calculate_rt60_with_panels theHub drape_fallback (fun _ => 100) true .f125 := by
  have h := c6_rt60_floor (fun _ => 100) drape_fallback true .f125
    (fun _ => none) 0 .MidRoom .f8000
  exact ⟨h.1, h.2.1, h.2.2.1,
    h.2.2.2 theHub (by norm_num [theHub]) (by norm_num [theHub])⟩

end TreatmentSimulator

namespace RT60HeatmapAnalyzer

/-- C2: on the state produced by `__init__` (which never assigns
`baseline_absorption`, `room_volume`, `panel_area`,
`panel_absorption_5_5_inch` or `panel_absorption_3_inch`),
`calculate_rt60_with_panels` fails with an undefined-attribute error for
every panel count: reading `baseline_absorption` fails when the count is 0,
and reading `panel_area` fails first otherwise. -/
theorem c2_uninitialized_attributes (n : ℕ) :
    calculate_rt60_with_panelsM init_state n =
      .error (if n = 0 then "baseline_absorption" else "panel_area") := by
  by_cases h : n = 0
  · subst h
    rfl
  · have hinner : get_panel_absorption_by_countM init_state n = .error "panel_area" := by
      unfold get_panel_absorption_by_countM
      rw [if_neg h]
      rfl
    unfold calculate_rt60_with_panelsM
    rw [hinner, if_neg h]
    rfl

/-- C3, counterexample: requesting 25 panels — more than the 4+3+9+4 = 20
capacity of the four capped zones — commits all 25 panels (the grid-cloud
zone has no cap), and the absorption contribution keeps growing past 20
panels instead of stopping at total capacity. -/
theorem c3_capacity_counterexample :
    total_committed 25 = 25 ∧ (25 : ℕ) ≠ 4 + 3 + 9 + 4 ∧
      get_panel_absorption_by_count 8 (fun _ => 1) (fun _ => 1) 20 .f125 <
        get_panel_absorption_by_count 8 (fun _ => 1) (fun _ => 1) 25 .f125 := by
  refine ⟨by decide, by decide, ?_⟩
  norm_num [get_panel_absorption_by_count, corner_traps, midpoint_panels,
    ceiling_panels, wall_panels, cloud_panels]

/-- C3, amended: the first four zones cap at 4, 3, 9 and 4 panels, but the
fifth (grid clouds) is uncapped, so the resolver commits every requested
panel — the committed total always equals the request — and beyond the 20
capped slots the absorption contribution strictly increases with each extra
panel whenever the panel area times the 3-inch coefficient is positive. -/
theorem c3_no_capacity_cap (area : ℚ) (a55 a3 : Freq → ℚ) (n : ℕ) (f : Freq)
    (hn : 20 ≤ n) (hpos : 0 < area * a3 f) :
    total_committed n = n ∧
      get_panel_absorption_by_count area a55 a3 n f <
        get_panel_absorption_by_count area a55 a3 (n + 1) f := by
  constructor
  · simp only [total_committed, corner_traps, midpoint_panels, ceiling_panels,
      wall_panels, cloud_panels]
    omega
  · have en : corner_traps n = 4 ∧ midpoint_panels n = 3 ∧ ceiling_panels n = 9 ∧
        wall_panels n = 4 ∧ cloud_panels n = n - 20 := by
      simp only [corner_traps, midpoint_panels, ceiling_panels, wall_panels,
        cloud_panels]
      omega
    have es : corner_traps (n + 1) = 4 ∧ midpoint_panels (n + 1) = 3 ∧
        ceiling_panels (n + 1) = 9 ∧ wall_panels (n + 1) = 4 ∧
        cloud_panels (n + 1) = n + 1 - 20 := by
      simp only [corner_traps, midpoint_panels, ceiling_panels, wall_panels,
        cloud_panels]
      omega
    obtain ⟨e1, e2, e3, e4, e5⟩ := en
    obtain ⟨g1, g2, g3, g4, g5⟩ := es
    unfold get_panel_absorption_by_count
    rw [if_neg (by omega : ¬n = 0), if_neg (by omega : ¬n + 1 = 0),
      e1, e2, e3, e4, e5, g1, g2, g3, g4, g5]
    have hcast : ((n + 1 - 20 : ℕ) : ℚ) = ((n - 20 : ℕ) : ℚ) + 1 := by
      have h' : n + 1 - 20 = (n - 20) + 1 := by omega
      rw [h']
      push_cast
      ring
    rw [hcast]
    nlinarith [hpos]

/-- Witness for `c3_no_capacity_cap` at 20 requested panels, unit
coefficients and panel area 8. -/
theorem c3_no_capacity_cap_witness :
    total_committed 20 = 20 ∧
      get_panel_absorption_by_count 8 (fun _ => 1) (fun _ => 1) 20 .f125 <
        get_panel_absorption_by_count 8 (fun _ => 1) (fun _ => 1) (20 + 1) .f125 :=
  c3_no_capacity_cap 8 (fun _ => 1) (fun _ => 1) 20 .f125 (le_refl 20) (by norm_num)

/-- C7, counterexample: with zero panels at the SE corner and 125 Hz, the
absorption the source feeds to Sabine is the baseline scaled by the position
factor (1.15 * 1.25), not the unscaled baseline that applying the factor
only to the added term would give — the two formulas disagree. -/
theorem c7_position_factor_counterexample :
    adjusted_absorption (fun _ => 0) .SECorner .f125 ≠
      adjusted_absorption_spec (fun _ => 0) .SECorner .f125 := by
  norm_num [adjusted_absorption, adjusted_absorption_spec,
    calculate_baseline_absorption, get_position_factor, base_factor,
    corner_position, freq_hz, floor_area, ceiling_area, total_wall_area,
    room_width_EW, room_length_NS, room_height, baseline_coeffs]

/-- C7, amended: in the position-specific heatmap variant the position
factor multiplies the whole absorption sum — it scales the baseline term
exactly as much as the added panel term — before the Sabine RT60 is
computed. -/
theorem c7_factor_scales_total (panel_absorption : Freq → ℚ) (pos : Position)
    (f : Freq) :
    adjusted_absorption panel_absorption pos f =
      get_position_factor pos f * calculate_baseline_absorption f +
        get_position_factor pos f * panel_absorption f := by
  unfold adjusted_absorption
  ring

end RT60HeatmapAnalyzer

namespace RT60HeatmapAnalyzerHub

/-- C8, counterexample: the Hub predictor returns results, not errors, on
missing data — with a position whose table lacks the 8000 Hz band it
silently returns the 0.5 s default, and with a position absent from the
data it silently returns 0.6 s for any band. -/
theorem c8_silent_default_counterexample :
    calculate_rt60_with_panels
        (fun pos =>
          match pos with
          | .MidRoom => some fun f =>
            match f with
            | .f8000 => none
            | _ => some (6/10)
          | _ => none) 0 .MidRoom .f8000 = 1/2 ∧
      calculate_rt60_with_panels (fun _ => none) 0 .BackCorner .f125 = 3/5 := by
  exact ⟨rfl, rfl⟩

/-- C8, amended: for every position and band, a band missing from the
baseline data yields the silent default 0.5 s and a missing position yields
0.6 s; the prediction never fails with a validation error. -/
theorem c8_missing_data_defaults
    (data : Position → Option (RT60HeatmapAnalyzer.Freq → Option ℚ))
    (factor : ℚ) (pos : Position) (f : RT60HeatmapAnalyzer.Freq) :
    (data pos = none → calculate_rt60_with_panels data factor pos f = 3/5) ∧
      (∀ measured, data pos = some measured → measured f = none →
        calculate_rt60_with_panels data factor pos f = 1/2) := by
  constructor
  · intro h
    simp [calculate_rt60_with_panels, h]
  · intro measured hm hf
    simp [calculate_rt60_with_panels, hm, hf]

/-- Witness for `c8_missing_data_defaults`: the empty data table yields the
0.6 s missing-position default at Chair 1, 500 Hz. -/
theorem c8_missing_data_defaults_witness :
    calculate_rt60_with_panels (fun _ => none) 1 .Chair1 .f500 = 3/5 :=
  (c8_missing_data_defaults (fun _ => none) 1 .Chair1 .f500).1 rfl

end RT60HeatmapAnalyzerHub

namespace GenerateHubFrequencyData

/-- C10: the baseline STI estimator returns exactly
`max(0.3, 1 - alcons/15 - max(0, (t_mid - 0.3)/2))`, and for non-negative
inputs its result lies in [0.3, 1]. -/
theorem c10_sti_estimate_formula (a t : ℚ) :
    (calculate_sti_degradation (some a) (some t)).1 =
        max (3/10) (1 - a/15 - max 0 ((t - 3/10)/2)) ∧
      (0 ≤ a → 0 ≤ t →
        3/10 ≤ (calculate_sti_degradation (some a) (some t)).1 ∧
          (calculate_sti_degradation (some a) (some t)).1 ≤ 1) := by
  refine ⟨rfl, fun ha ht => ⟨?_, ?_⟩⟩
  · simp only [calculate_sti_degradation, Option.getD_some]
    exact le_max_left _ _
  · simp only [calculate_sti_degradation, Option.getD_some]
    apply max_le (by norm_num)
    have h0 : (0:ℚ) ≤ max 0 ((t - 3/10)/2) := le_max_left 0 _
    have ha15 : (0:ℚ) ≤ a/15 := by positivity
    linarith

/-- Witness for `c10_sti_estimate_formula` at alcons = 3, t_mid = 0.4. -/
theorem c10_sti_estimate_formula_witness :
    3/10 ≤ (calculate_sti_degradation (some 3) (some (2/5))).1 ∧
      (calculate_sti_degradation (some 3) (some (2/5))).1 ≤ 1 :=
  (c10_sti_estimate_formula 3 (2/5)).2 (by norm_num) (by norm_num)

end GenerateHubFrequencyData
